import Mathlib

/-!
Verification of the spherical camera controller of the 3D camera image
editor: the pose data model and its mutation paths (`App.tsx`), the prompt
classification (`CameraViewer.tsx`), the batch generation loop
(`App.tsx` / `geminiService.ts`) and the drag geometry of the interactive
viewer. UI numbers are modelled as rationals where the code only clamps and
compares; the trigonometric drag math is modelled over the reals.
-/

namespace Studio

/-- The four shot-type tags of `types.ts` (`shotType: long | medium | close | extreme`). -/
inductive ShotType
  | long
  | medium
  | close
  | extreme
deriving DecidableEq

/-- The camera pose of `types.ts`: azimuth, elevation, distance and shot type. -/
structure CameraSettings where
  azimuth : ℚ
  elevation : ℚ
  distance : ℚ
  shotType : ShotType
deriving DecidableEq

/-- The initial pose created by `useState` in `App.tsx`. -/
def defaultSettings : CameraSettings :=
  { azimuth := 45, elevation := 35, distance := 1, shotType := ShotType.medium }

/-- `EditableNumber.handleBlur` of `App.tsx`: `parseFloat` the text (`none` models `NaN`),
fall back to the currently displayed value on `NaN`, then clamp with
`Math.min(Math.max(num, min), max)`. -/
def handleBlur (tempValue : Option ℚ) (value lo hi : ℚ) : ℚ :=
  min (max (tempValue.getD value) lo) hi

/-- `setGameAngle` of `App.tsx`: a direction preset overwrites the azimuth and forces the
elevation to 35, leaving the rest of the pose alone. -/
def setGameAngle (azim : ℚ) (p : CameraSettings) : CameraSettings :=
  { p with azimuth := azim, elevation := 35 }

/-- The `dist` field of `shotTypeOptions` in `App.tsx`: long 1.4, medium 1.0, close 0.7,
extreme 0.5. -/
def shotTypeDist : ShotType → ℚ
  | ShotType.long => 1.4
  | ShotType.medium => 1
  | ShotType.close => 0.7
  | ShotType.extreme => 0.5

/-- The shot-type button `onClick` of `App.tsx`: set the tag and its preset distance. -/
def applyShotType (t : ShotType) (p : CameraSettings) : CameraSettings :=
  { p with shotType := t, distance := shotTypeDist t }

/-- The `angle` fields of the nine `directions` entries of `App.tsx`; `-1` marks the center
cell, which is rendered as a static label and not as a button. -/
def directionAngles : List ℚ := [315, 0, 45, 270, -1, 90, 225, 180, 135]

/-- One pose mutation at the public interface of `App.tsx`: a committed numeric edit
(`EditableNumber.handleBlur`), a slider change, a direction-preset button, or a
shot-type button. -/
inductive PoseEvent
  | azimuthEdit (s : Option ℚ)
  | azimuthSlide (v : ℚ)
  | elevationEdit (s : Option ℚ)
  | elevationSlide (v : ℚ)
  | distanceEdit (s : Option ℚ)
  | distanceSlide (v : ℚ)
  | preset (angle : ℚ)
  | shot (t : ShotType)

/-- The state update each interface event performs in `App.tsx`: the `onChange` handlers
of the three `EditableNumber`s and sliders, `setGameAngle`, and the shot-type buttons. -/
def applyEvent : PoseEvent → CameraSettings → CameraSettings
  | PoseEvent.azimuthEdit s, p => { p with azimuth := handleBlur s p.azimuth 0 360 }
  | PoseEvent.azimuthSlide v, p => { p with azimuth := v }
  | PoseEvent.elevationEdit s, p => { p with elevation := handleBlur s p.elevation (-30) 60 }
  | PoseEvent.elevationSlide v, p => { p with elevation := v }
  | PoseEvent.distanceEdit s, p => { p with distance := handleBlur s p.distance 0.6 1.4 }
  | PoseEvent.distanceSlide v, p => { p with distance := v }
  | PoseEvent.preset a, p => setGameAngle a p
  | PoseEvent.shot t, p => applyShotType t p

/-- What the browser guarantees about the events: a `<input type=range>` only emits values
between its `min` and `max` attributes, and a preset button exists exactly for the
non-center entries of `directions`. Edits and shot buttons carry no constraint. -/
def eventWF : PoseEvent → Bool
  | PoseEvent.azimuthSlide v => decide (0 ≤ v) && decide (v ≤ 360)
  | PoseEvent.elevationSlide v => decide (-30 ≤ v) && decide (v ≤ 60)
  | PoseEvent.distanceSlide v => decide (0.6 ≤ v) && decide (v ≤ 1.4)
  | PoseEvent.preset a => decide (a ∈ directionAngles) && decide (a ≠ -1)
  | _ => true

/-- The pose invariant exactly as the spec states it: azimuth in `[0,360)`, elevation in
`[-30,60]`, distance in `[0.6,1.4]`. -/
def SpecValidPose (p : CameraSettings) : Prop :=
  0 ≤ p.azimuth ∧ p.azimuth < 360 ∧ -30 ≤ p.elevation ∧ p.elevation ≤ 60 ∧
    0.6 ≤ p.distance ∧ p.distance ≤ 1.4

/-- The invariant the interface actually maintains: azimuth can reach 360 (both the slider
and the numeric input clamp to the inclusive bound 360) and distance can reach 0.5 (the
extreme shot-type preset), so those two bounds are wider than the spec's. -/
def ValidPose (p : CameraSettings) : Prop :=
  0 ≤ p.azimuth ∧ p.azimuth ≤ 360 ∧ -30 ≤ p.elevation ∧ p.elevation ≤ 60 ∧
    0.5 ≤ p.distance ∧ p.distance ≤ 1.4

/-- The horizontal sector classification of `generatePrompt` in `CameraViewer.tsx`. -/
def horizontalDesc (yaw : ℚ) : String :=
  if 337.5 ≤ yaw ∨ yaw < 22.5 then "Front view (0°)"
  else if 22.5 ≤ yaw ∧ yaw < 67.5 then "Front-right 45° angle"
  else if 67.5 ≤ yaw ∧ yaw < 112.5 then "Right side 90° profile"
  else if 112.5 ≤ yaw ∧ yaw < 157.5 then "Rear-right 135° angle"
  else if 157.5 ≤ yaw ∧ yaw < 202.5 then "Back view 180°"
  else if 202.5 ≤ yaw ∧ yaw < 247.5 then "Rear-left 225° angle"
  else if 247.5 ≤ yaw ∧ yaw < 292.5 then "Left side 270° profile"
  else "Front-left 315° angle"

/-- The vertical band classification of `generatePrompt` in `CameraViewer.tsx`. -/
def verticalDesc (pitch : ℚ) : String :=
  if 45 < pitch then "Bird's eye view (High overhead)"
  else if 15 < pitch then "High angle shot looking down"
  else if pitch < -15 then "Low angle hero shot looking up"
  else "Eye-level horizontal view"

/-- The shot-type phrase of `generatePrompt` in `CameraViewer.tsx`. -/
def shotDesc : ShotType → String
  | ShotType.long => "Wide shot showing more context"
  | ShotType.medium => "Medium shot, standard framing"
  | ShotType.close => "Close-up shot focusing on detail"
  | ShotType.extreme => "Extreme close-up macro detail"

/-- `generatePrompt` of `CameraViewer.tsx`; `numStr` stands for the JavaScript
number-to-string conversion used by the template literal. -/
def generatePrompt (numStr : ℚ → String) (p : CameraSettings) : String :=
  "Product photography, Camera Yaw: " ++ numStr p.azimuth ++ " degrees, Camera Pitch: "
    ++ numStr p.elevation ++ " degrees. " ++ horizontalDesc p.azimuth ++ ", "
    ++ verticalDesc p.elevation ++ ", " ++ shotDesc p.shotType
    ++ ". Pure white solid background, high-end studio lighting, sharp focus, volumetric lighting, spatial consistency."

/-- The eight sector labels in counterclockwise order of their center angles
0, 45, ..., 315, as the spec's horizontal classification lists them. -/
def sectorLabels : List String :=
  ["Front view (0°)", "Front-right 45° angle", "Right side 90° profile",
   "Rear-right 135° angle", "Back view 180°", "Rear-left 225° angle",
   "Left side 270° profile", "Front-left 315° angle"]

/-- Modelled from the spec's words for the horizontal classification: the index of the
45°-wide sector centered on a multiple of 45°, boundaries at the midpoints. -/
def specSector (a : ℚ) : ℤ := ⌊(a + 22.5) / 45⌋ % 8

/-- The horizontal label the spec's sector scheme assigns. -/
def specHorizontal (a : ℚ) : String := sectorLabels.getD (specSector a).toNat ""

/-- The generation UI state of `types.ts`. -/
structure GenerationState where
  isGenerating : Bool
  error : Option String
  outputImageUrls : List String
deriving DecidableEq

/-- The initial generation state created by `useState` in `App.tsx`. -/
def initialGenState : GenerationState :=
  { isGenerating := false, error := none, outputImageUrls := [] }

/-- The sequential loop inside `handleGenerate` of `App.tsx`. The collaborator
`generateAngledImage` is an oracle `gen` from the call index to a result or a thrown
message; `i` is the next call index, `k` the generations still to run, `acc` the local
`results` array. Returns the outcome together with how many calls were issued. -/
def batchRun (gen : Nat → Except String String) :
    Nat → Nat → List String → Except String (List String) × Nat
  | _, 0, acc => (Except.ok acc, 0)
  | i, k + 1, acc =>
    match gen i with
    | Except.error m => (Except.error m, 1)
    | Except.ok url =>
      let r := batchRun gen (i + 1) k (acc ++ [url])
      (r.1, r.2 + 1)

/-- `handleGenerate` of `App.tsx`: reject an empty reference list, otherwise clear the
output list and run the batch; on success publish all results at once, on a thrown error
leave the cleared output list and surface `err.message || fallback` (an empty message
models a falsy one). The second component counts the collaborator calls issued. -/
def handleGenerate (gen : Nat → Except String String) (inputImages : List String)
    (batchSize : Nat) (st : GenerationState) : GenerationState × Nat :=
  if inputImages = [] then
    ({ st with error := some "请至少上传一张参考图。" }, 0)
  else
    let st1 : GenerationState :=
      { st with isGenerating := true, error := none, outputImageUrls := [] }
    match batchRun gen 0 batchSize [] with
    | (Except.ok results, c) =>
      ({ st1 with outputImageUrls := results, isGenerating := false }, c)
    | (Except.error m, c) =>
      ({ st1 with isGenerating := false,
                  error := some (if m = "" then "渲染失败，请重试。" else m) }, c)

/-- JavaScript `Array.prototype.slice(0, n)`: a negative end counts from the end of the
array, and the result never exceeds the available elements. -/
def jsSlice (l : List String) (n : ℤ) : List String :=
  if 0 ≤ n then l.take n.toNat else l.take (l.length - (-n).toNat)

/-- One `reader.onload` callback of `handleFileUpload` in `App.tsx`: append the decoded
file and truncate the state to the first three entries. -/
def appendCapped (prev : List String) (result : String) : List String :=
  (prev ++ [result]).take 3

/-- `handleFileUpload` of `App.tsx`: take only enough of the selected `files` to fill the
remaining slots (`3 - inputImages.length`), then run one append-and-truncate update per
file. Files stand for their decoded data-URL strings. -/
def handleFileUpload (inputImages files : List String) : List String :=
  (jsSlice files (3 - (inputImages.length : ℤ))).foldl appendCapped inputImages

/-- A world-space vector as the viewer math uses it. -/
structure Vec3 where
  x : ℝ
  y : ℝ
  z : ℝ

/-- `THREE.Vector3.length()`. -/
noncomputable def vlen (v : Vec3) : ℝ := Real.sqrt (v.x ^ 2 + v.y ^ 2 + v.z ^ 2)

/-- Component-wise dot product, `THREE.Vector3.dot`. -/
def dotV (a b : Vec3) : ℝ := a.x * b.x + a.y * b.y + a.z * b.z

/-- Scalar multiple of a vector. -/
def smulV (c : ℝ) (v : Vec3) : Vec3 := ⟨c * v.x, c * v.y, c * v.z⟩

/-- Component-wise vector difference. -/
def subV (a b : Vec3) : Vec3 := ⟨a.x - b.x, a.y - b.y, a.z - b.z⟩

/-- `THREE.Vector3.negate`. -/
def negV (v : Vec3) : Vec3 := ⟨-v.x, -v.y, -v.z⟩

/-- `THREE.Vector3.normalize`: divide by the length, or by 1 when the length is zero
(THREE divides by `this.length() || 1`). -/
noncomputable def normalizeV (v : Vec3) : Vec3 :=
  if vlen v = 0 then v else smulV (1 / vlen v) v

/-- `Math.atan2 y x` over the reals, as the complex argument of `x + y i`;
its range is `(-π, π]`. -/
noncomputable def atan2 (y x : ℝ) : ℝ := Complex.arg ((x : ℂ) + (y : ℂ) * Complex.I)

/-- `THREE.MathUtils.clamp(value, lo, hi) = Math.max(lo, Math.min(hi, value))`. -/
noncomputable def threeClamp (v lo hi : ℝ) : ℝ := max lo (min hi v)

/-- `Math.round`: round half toward positive infinity, `⌊x + 1/2⌋`. -/
noncomputable def jsRound (x : ℝ) : ℤ := ⌊x + 1 / 2⌋

/-- The azimuth wrap in the orbit branch of `handlePointerMove`: add 360 when the degree
value is negative. -/
noncomputable def wrap360 (v : ℝ) : ℝ := if v < 0 then v + 360 else v

/-- The camera pose as the real-valued viewer math of `InteractiveScene` sees it. -/
structure RPose where
  azimuth : ℝ
  elevation : ℝ
  distance : ℝ
  shotType : ShotType

/-- The fixed display constant of `CameraViewer.tsx`. -/
noncomputable def VISUAL_SCALE : ℝ := 2.5

/-- The spherical-to-Cartesian position of `InteractiveScene`:
`phi = (90 - elevation)·π/180`, `theta = azimuth·π/180`, `radius = distance·2.5`. -/
noncomputable def positionOf (p : RPose) : Vec3 :=
  let phi := (90 - p.elevation) * (Real.pi / 180)
  let theta := p.azimuth * (Real.pi / 180)
  let radius := p.distance * VISUAL_SCALE
  { x := radius * Real.sin phi * Real.sin theta
    y := radius * Real.cos phi
    z := radius * Real.sin phi * Real.cos theta }

/-- The orbit branch of `handlePointerMove` in `CameraViewer.tsx`. `hit` is what
`Ray.intersectSphere` produced: `none` models a miss, which leaves the preallocated
zero vector in `target`, so the `target.length() > 0` guard skips the update. -/
noncomputable def orbitMove (s : RPose) (hit : Option Vec3) : RPose :=
  let target := hit.getD ⟨0, 0, 0⟩
  if 0 < vlen target then
    let r := vlen target
    let newPhi := Real.arccos (threeClamp (target.y / r) (-1) 1)
    let newTheta := atan2 target.x target.z
    let newElev := 90 - newPhi * 180 / Real.pi
    let newAzim := wrap360 (newTheta * 180 / Real.pi)
    { s with azimuth := ((jsRound newAzim % 360 : ℤ) : ℝ),
             elevation := threeClamp ((jsRound newElev : ℤ) : ℝ) (-30) 60 }
  else s

/-- Modelled from the claim's words: the elevation an orbit hit at `t` must produce,
`clamp(round(90 - acos(clamp(t.y/|t|, -1, 1))·180/π), -30, 60)`. -/
noncomputable def specOrbitElevation (t : Vec3) : ℝ :=
  max (-30) (min 60 ((⌊(90 - Real.arccos (max (-1) (min 1 (t.y / vlen t))) * 180 / Real.pi) + 1 / 2⌋ : ℤ) : ℝ))

/-- Modelled from the claim's words: the azimuth an orbit hit at `t` must produce, the
degree value of `atan2(t.x, t.z)`, plus 360 if negative, rounded to the nearest integer
degree and reduced into `[0, 360)`. -/
noncomputable def specOrbitAzimuth (t : Vec3) : ℝ :=
  let deg := atan2 t.x t.z * 180 / Real.pi
  let nonneg := if deg < 0 then deg + 360 else deg
  ((⌊nonneg + 1 / 2⌋ % 360 : ℤ) : ℝ)

/-- The elevation recovered from a position by the inverse mapping of the orbit branch
(before rounding), as the round-trip property states it. -/
noncomputable def recoveredElevation (v : Vec3) : ℝ :=
  90 - Real.arccos (threeClamp (v.y / vlen v) (-1) 1) * 180 / Real.pi

/-- The azimuth recovered from a position by the inverse mapping of the orbit branch
(before rounding): degrees of `atan2(x, z)`, wrapped by +360 when negative. -/
noncomputable def recoveredAzimuth (v : Vec3) : ℝ :=
  wrap360 (atan2 v.x v.z * 180 / Real.pi)

/-- An IEEE double as JavaScript sees the zoom computation: a finite real, a signed
infinity, or `NaN`. The zoom branch of `handlePointerMove` is the one place where the
code can divide by zero, so its arithmetic is modelled on this type. -/
inductive JsR
  | num (x : ℝ)
  | posInf
  | negInf
  | nan

/-- JavaScript division of two finite doubles: `x/0` is a signed infinity for `x ≠ 0`
and `NaN` for `0/0`. -/
noncomputable def jsDiv (a b : ℝ) : JsR :=
  if b = 0 then (if a = 0 then JsR.nan else if 0 < a then JsR.posInf else JsR.negInf)
  else JsR.num (a / b)

/-- One component of `cameraPos + currentDir·t` in JavaScript: `p + c·t` where `t` may be
non-finite (`0·±∞ = NaN`, and a finite `p` never changes an infinity). -/
noncomputable def jsScaleAdd (p c : ℝ) : JsR → JsR
  | JsR.num t => JsR.num (p + c * t)
  | JsR.nan => JsR.nan
  | JsR.posInf => if 0 < c then JsR.posInf else if c < 0 then JsR.negInf else JsR.nan
  | JsR.negInf => if 0 < c then JsR.negInf else if c < 0 then JsR.posInf else JsR.nan

/-- JavaScript squaring: both infinities square to `+∞`, `NaN` propagates. -/
noncomputable def jsSq : JsR → JsR
  | JsR.num x => JsR.num (x * x)
  | JsR.nan => JsR.nan
  | JsR.posInf => JsR.posInf
  | JsR.negInf => JsR.posInf

/-- JavaScript addition on doubles: `NaN` propagates, `+∞ + -∞ = NaN`. -/
noncomputable def jsAdd : JsR → JsR → JsR
  | JsR.num a, JsR.num b => JsR.num (a + b)
  | JsR.posInf, JsR.num _ => JsR.posInf
  | JsR.num _, JsR.posInf => JsR.posInf
  | JsR.posInf, JsR.posInf => JsR.posInf
  | JsR.negInf, JsR.num _ => JsR.negInf
  | JsR.num _, JsR.negInf => JsR.negInf
  | JsR.negInf, JsR.negInf => JsR.negInf
  | JsR.posInf, JsR.negInf => JsR.nan
  | JsR.negInf, JsR.posInf => JsR.nan
  | JsR.nan, _ => JsR.nan
  | _, JsR.nan => JsR.nan

/-- JavaScript `Math.sqrt`: `NaN` on negative input, `+∞` stays, `NaN` propagates. -/
noncomputable def jsSqrt : JsR → JsR
  | JsR.num x => if x < 0 then JsR.nan else JsR.num (Real.sqrt x)
  | JsR.posInf => JsR.posInf
  | JsR.negInf => JsR.nan
  | JsR.nan => JsR.nan

/-- Division by the positive constant `VISUAL_SCALE`: infinities keep their sign. -/
noncomputable def jsDivScale : JsR → JsR
  | JsR.num x => JsR.num (x / VISUAL_SCALE)
  | JsR.posInf => JsR.posInf
  | JsR.negInf => JsR.negInf
  | JsR.nan => JsR.nan

/-- JavaScript `Math.min(c, v)` with a finite first argument: `NaN` wins. -/
noncomputable def jsMin (c : ℝ) : JsR → JsR
  | JsR.num x => JsR.num (min c x)
  | JsR.posInf => JsR.num c
  | JsR.negInf => JsR.negInf
  | JsR.nan => JsR.nan

/-- JavaScript `Math.max(c, v)` with a finite first argument: `NaN` wins. -/
noncomputable def jsMax (c : ℝ) : JsR → JsR
  | JsR.num x => JsR.num (max c x)
  | JsR.posInf => JsR.posInf
  | JsR.negInf => JsR.num c
  | JsR.nan => JsR.nan

/-- The denominator `1 - dot·dot` of the zoom branch of `handlePointerMove`, with
`dot = rayDir ⬝ normalize(cameraPos)`. -/
noncomputable def zoomDenom (rayDir cameraPos : Vec3) : ℝ :=
  1 - dotV rayDir (normalizeV cameraPos) * dotV rayDir (normalizeV cameraPos)

/-- The zoom branch of `handlePointerMove` in `CameraViewer.tsx`, computed with
JavaScript number semantics: project the pointer ray onto the line through the origin in
the direction of the current camera position, take the projected point's distance from
the origin over `VISUAL_SCALE`, and clamp it into `[0.6, 1.4]`. The division by
`1 - dot·dot` is not guarded, so an exactly parallel ray makes `t = 0/0 = NaN` and the
`NaN` flows through `clamp` into the stored distance. -/
noncomputable def zoomNewRadius (rayOrigin rayDir cameraPos : Vec3) : JsR :=
  let currentDir := normalizeV cameraPos
  let dot := dotV rayDir currentDir
  let num := dotV (negV rayOrigin) (subV currentDir (smulV dot rayDir))
  let t := jsDiv num (1 - dot * dot)
  let nx := jsScaleAdd cameraPos.x currentDir.x t
  let ny := jsScaleAdd cameraPos.y currentDir.y t
  let nz := jsScaleAdd cameraPos.z currentDir.z t
  let len := jsSqrt (jsAdd (jsAdd (jsSq nx) (jsSq ny)) (jsSq nz))
  jsMax 0.6 (jsMin 1.4 (jsDivScale len))

/-- The amended pose invariant over the reals, for the drag paths: azimuth in `[0,360]`,
elevation in `[-30,60]`, distance in `[0.5,1.4]`. -/
def RValidPose (p : RPose) : Prop :=
  0 ≤ p.azimuth ∧ p.azimuth ≤ 360 ∧ -30 ≤ p.elevation ∧ p.elevation ≤ 60 ∧
    0.5 ≤ p.distance ∧ p.distance ≤ 1.4

theorem handleBlur_mem (s : Option ℚ) (v lo hi : ℚ) (h : lo ≤ hi) :
    lo ≤ handleBlur s v lo hi ∧ handleBlur s v lo hi ≤ hi := by
  unfold handleBlur
  exact ⟨le_min (le_max_right _ _) h, min_le_right _ _⟩

theorem appendCapped_foldl_le (fs : List String) :
    ∀ prev : List String, prev.length ≤ 3 → (fs.foldl appendCapped prev).length ≤ 3 := by
  induction fs with
  | nil => intro prev h; simpa using h
  | cons f fs ih =>
    intro prev _
    refine ih _ ?_
    simp [appendCapped]

/-- C8: a committed free-text numeric edit on a pose field with bounds `[lo, hi]` reverts
to the last valid value when the text does not parse (`none` models `parseFloat` giving
`NaN`), and clamps a parsed number to the violated bound instead of rejecting it. -/
theorem c8_numeric_edit_sanitized (value lo hi : ℚ) (hlo : lo ≤ value) (hhi : value ≤ hi) :
    handleBlur none value lo hi = value ∧
    ∀ x : ℚ,
      (x < lo → handleBlur (some x) value lo hi = lo) ∧
      (hi < x → handleBlur (some x) value lo hi = hi) ∧
      (lo ≤ x → x ≤ hi → handleBlur (some x) value lo hi = x) := by
  have hlohi : lo ≤ hi := hlo.trans hhi
  refine ⟨?_, fun x => ⟨fun hx => ?_, fun hx => ?_, fun hx1 hx2 => ?_⟩⟩
  · unfold handleBlur
    simp [Option.getD, max_eq_left hlo, min_eq_left hhi]
  · unfold handleBlur
    simp [Option.getD, max_eq_right hx.le, min_eq_left hlohi]
  · unfold handleBlur
    simp [Option.getD, max_eq_left (hlohi.trans hx.le), min_eq_right hx.le]
  · unfold handleBlur
    simp [Option.getD, max_eq_left hx1, min_eq_left hx2]

/-- Closed witness for C8 on the azimuth field: an unparsable edit keeps 45, and the
out-of-range edit 500 is clamped to the bound 360. -/
theorem c8_witness :
    handleBlur none 45 0 360 = 45 ∧ handleBlur (some 500) 45 0 360 = 360 :=
  ⟨(c8_numeric_edit_sanitized 45 0 360 (by norm_num) (by norm_num)).1,
   ((c8_numeric_edit_sanitized 45 0 360 (by norm_num) (by norm_num)).2 500).2.1 (by norm_num)⟩

/-- C9: a direction-preset button (a non-center entry of `directions`) sets the azimuth
to its angle, overwrites the elevation to 35, and leaves distance and shot type alone. -/
theorem c9_preset_frame (a : ℚ) (ha : a ∈ directionAngles) (hne : a ≠ -1)
    (p : CameraSettings) :
    (setGameAngle a p).azimuth = a ∧ (setGameAngle a p).elevation = 35 ∧
    (setGameAngle a p).distance = p.distance ∧ (setGameAngle a p).shotType = p.shotType :=
  ⟨rfl, rfl, rfl, rfl⟩

/-- Closed witness for C9: the front-left preset (315°) applied to the default pose. -/
theorem c9_witness :
    (setGameAngle 315 defaultSettings).azimuth = 315 ∧
    (setGameAngle 315 defaultSettings).elevation = 35 ∧
    (setGameAngle 315 defaultSettings).distance = defaultSettings.distance ∧
    (setGameAngle 315 defaultSettings).shotType = defaultSettings.shotType :=
  c9_preset_frame 315 (by decide) (by decide) defaultSettings

/-- C10: starting from a reference list within the cap, an upload processes exactly
enough files to fill the remaining slots up to 3, each appended result is truncated to
the first 3 entries, and the final list again holds at most 3 images. -/
theorem c10_upload_cap (inputImages files : List String) (h : inputImages.length ≤ 3) :
    (handleFileUpload inputImages files).length ≤ 3 ∧
    (jsSlice files (3 - (inputImages.length : ℤ))).length
      = min files.length (3 - inputImages.length) ∧
    ∀ (prev : List String) (r : String), (appendCapped prev r).length ≤ 3 := by
  refine ⟨appendCapped_foldl_le _ inputImages h, ?_, ?_⟩
  · have h0 : (0 : ℤ) ≤ 3 - (inputImages.length : ℤ) := by omega
    simp only [jsSlice, if_pos h0, List.length_take]
    omega
  · intro prev r
    simp [appendCapped]

/-- Closed witness for C10: two images already present, three files selected; only one
file is processed and the list stays at three. -/
theorem c10_witness :
    (handleFileUpload ["a", "b"] ["c", "d", "e"]).length ≤ 3 ∧
    (jsSlice ["c", "d", "e"] (3 - (["a", "b"].length : ℤ))).length
      = min (["c", "d", "e"].length) (3 - ["a", "b"].length) ∧
    ∀ (prev : List String) (r : String), (appendCapped prev r).length ≤ 3 :=
  c10_upload_cap ["a", "b"] ["c", "d", "e"] (by decide)

theorem batchRun_succ (gen : Nat → Except String String) (i k : Nat) (acc : List String) :
    batchRun gen i (k + 1) acc =
      match gen i with
      | Except.error m => (Except.error m, 1)
      | Except.ok url =>
        let r := batchRun gen (i + 1) k (acc ++ [url])
        (r.1, r.2 + 1) := rfl

/-- C3: with a batch of 3 whose collaborator succeeds on the 1st call and throws on the
2nd, `handleGenerate` publishes an empty output list (the 1st result is discarded),
reports the error message (or the generic fallback for a falsy one), stops generating,
and issues exactly 2 calls, never a 3rd. -/
theorem c3_batch_all_or_nothing (gen : Nat → Except String String)
    (images : List String) (st : GenerationState) (u m : String)
    (himg : images ≠ []) (h0 : gen 0 = Except.ok u) (h1 : gen 1 = Except.error m) :
    (handleGenerate gen images 3 st).1.outputImageUrls = [] ∧
    (handleGenerate gen images 3 st).1.error
      = some (if m = "" then "渲染失败，请重试。" else m) ∧
    (handleGenerate gen images 3 st).1.isGenerating = false ∧
    (handleGenerate gen images 3 st).2 = 2 := by
  have hb : batchRun gen 0 3 [] = (Except.error m, 2) := by
    have s1 := batchRun_succ gen 0 2 []
    have s2 := batchRun_succ gen 1 1 ([] ++ [u])
    rw [h0] at s1
    rw [h1] at s2
    norm_num at s1 s2
    rw [s1, s2]
  simp [handleGenerate, himg, hb]

/-- Closed witness for C3 at a concrete collaborator that returns an image on call 0 and
throws "boom" on call 1. -/
theorem c3_witness :
    (handleGenerate (fun i => if i = 0 then Except.ok "img" else Except.error "boom")
        ["ref"] 3 initialGenState).1.outputImageUrls = [] ∧
    (handleGenerate (fun i => if i = 0 then Except.ok "img" else Except.error "boom")
        ["ref"] 3 initialGenState).1.error
      = some (if "boom" = "" then "渲染失败，请重试。" else "boom") ∧
    (handleGenerate (fun i => if i = 0 then Except.ok "img" else Except.error "boom")
        ["ref"] 3 initialGenState).1.isGenerating = false ∧
    (handleGenerate (fun i => if i = 0 then Except.ok "img" else Except.error "boom")
        ["ref"] 3 initialGenState).2 = 2 :=
  c3_batch_all_or_nothing _ ["ref"] initialGenState "img" "boom"
    (by simp) (by rfl) (by rfl)

/-- C7: the vertical classification realizes the four bands `(45, ∞)` overhead,
`(15, 45]` high angle, `[-15, 15]` eye-level and `(-∞, -15)` low angle, with the 45°
boundary open going up: 45.1 is overhead while 45.0 is a high-angle shot. -/
theorem c7_vertical_bands :
    verticalDesc 45.1 = "Bird's eye view (High overhead)" ∧
    verticalDesc 45 = "High angle shot looking down" ∧
    ∀ e : ℚ,
      (verticalDesc e = "Bird's eye view (High overhead)" ↔ 45 < e) ∧
      (verticalDesc e = "High angle shot looking down" ↔ 15 < e ∧ e ≤ 45) ∧
      (verticalDesc e = "Eye-level horizontal view" ↔ -15 ≤ e ∧ e ≤ 15) ∧
      (verticalDesc e = "Low angle hero shot looking up" ↔ e < -15) := by
  refine ⟨by norm_num [verticalDesc], by norm_num [verticalDesc], fun e => ?_⟩
  unfold verticalDesc
  split_ifs with h1 h2 h3 <;>
    refine ⟨?_, ?_, ?_, ?_⟩ <;> simp_all <;>
    first
      | linarith
      | (constructor <;> linarith)
      | (intro hx; linarith)

/-- Closed witness for C7: eye-level at elevation 0. -/
theorem c7_witness : verticalDesc 0 = "Eye-level horizontal view" :=
  ((c7_vertical_bands.2.2 0).2.2.1).2 (by norm_num)

theorem floor_div45 (a : ℚ) (k : ℤ) (hl : (k : ℚ) * 45 ≤ a + 22.5)
    (hr : a + 22.5 < ((k : ℚ) + 1) * 45) : ⌊(a + 22.5) / 45⌋ = k := by
  rw [Int.floor_eq_iff]
  constructor
  · rw [le_div_iff₀ (by norm_num : (0:ℚ) < 45)]
    exact hl
  · rw [div_lt_iff₀ (by norm_num : (0:ℚ) < 45)]
    push_cast
    linarith

/-- C6: the horizontal classification realizes eight 45°-wide sectors with boundaries at
the midpoints: on `[0, 360)` it agrees with the sector scheme `specSector`, its front
sector is exactly `[0°, 22.5°) ∪ [337.5°, 360°)`, and the boundary cases 22.4°, 22.6°,
0° and 359.9° classify as the spec's tests demand. -/
theorem c6_horizontal_sectors :
    horizontalDesc 22.4 = "Front view (0°)" ∧
    horizontalDesc 22.6 = "Front-right 45° angle" ∧
    horizontalDesc 0 = "Front view (0°)" ∧
    horizontalDesc 359.9 = "Front view (0°)" ∧
    ∀ a : ℚ, 0 ≤ a → a < 360 →
      horizontalDesc a = specHorizontal a ∧
      (horizontalDesc a = "Front view (0°)" ↔ (a < 22.5 ∨ 337.5 ≤ a)) := by
  refine ⟨by norm_num [horizontalDesc], by norm_num [horizontalDesc],
    by norm_num [horizontalDesc], by norm_num [horizontalDesc], fun a ha0 ha1 => ⟨?_, ?_⟩⟩
  · unfold horizontalDesc specHorizontal specSector
    split_ifs with g1 g2 g3 g4 g5 g6 g7
    · rcases g1 with g | g
      · rw [floor_div45 a 8 (by push_cast; linarith) (by push_cast; linarith)]
        rfl
      · rw [floor_div45 a 0 (by push_cast; linarith) (by push_cast; linarith)]
        rfl
    · rw [floor_div45 a 1 (by push_cast; linarith [g2.1]) (by push_cast; linarith [g2.2])]
      rfl
    · rw [floor_div45 a 2 (by push_cast; linarith [g3.1]) (by push_cast; linarith [g3.2])]
      rfl
    · rw [floor_div45 a 3 (by push_cast; linarith [g4.1]) (by push_cast; linarith [g4.2])]
      rfl
    · rw [floor_div45 a 4 (by push_cast; linarith [g5.1]) (by push_cast; linarith [g5.2])]
      rfl
    · rw [floor_div45 a 5 (by push_cast; linarith [g6.1]) (by push_cast; linarith [g6.2])]
      rfl
    · rw [floor_div45 a 6 (by push_cast; linarith [g7.1]) (by push_cast; linarith [g7.2])]
      rfl
    · push_neg at g1 g2 g3 g4 g5 g6 g7
      have h2 : (67.5 : ℚ) ≤ a := g2 g1.2
      have h3 : (112.5 : ℚ) ≤ a := g3 (by linarith)
      have h4 : (157.5 : ℚ) ≤ a := g4 (by linarith)
      have h5 : (202.5 : ℚ) ≤ a := g5 (by linarith)
      have h6 : (247.5 : ℚ) ≤ a := g6 (by linarith)
      have h7 : (292.5 : ℚ) ≤ a := g7 (by linarith)
      rw [floor_div45 a 7 (by push_cast; linarith) (by push_cast; linarith [g1.1])]
      rfl
  · unfold horizontalDesc
    split_ifs with g1 g2 g3 g4 g5 g6 g7 <;> simp_all <;> try tauto

/-- Closed witness for C6: azimuth 100° lands in the 90°-profile sector of the spec's
scheme, agreeing with the code's classification. -/
theorem c6_witness : horizontalDesc 100 = specHorizontal 100 :=
  (c6_horizontal_sectors.2.2.2.2 100 (by norm_num) (by norm_num)).1

theorem directionAngles_ok : ∀ a ∈ directionAngles, a ≠ -1 → 0 ≤ a ∧ a ≤ 360 := by
  decide

theorem shotTypeDist_mem (t : ShotType) : 0.5 ≤ shotTypeDist t ∧ shotTypeDist t ≤ 1.4 := by
  cases t <;> norm_num [shotTypeDist]

theorem applyEvent_valid : ∀ p : CameraSettings, ValidPose p →
    ∀ e : PoseEvent, eventWF e = true → ValidPose (applyEvent e p) := by
  intro p hp e he
  obtain ⟨b1, b2, b3, b4, b5, b6⟩ := hp
  cases e with
  | azimuthEdit s =>
    have hb := handleBlur_mem s p.azimuth 0 360 (by norm_num)
    exact ⟨hb.1, hb.2, b3, b4, b5, b6⟩
  | azimuthSlide v =>
    simp only [eventWF, Bool.and_eq_true, decide_eq_true_eq] at he
    exact ⟨he.1, he.2, b3, b4, b5, b6⟩
  | elevationEdit s =>
    have hb := handleBlur_mem s p.elevation (-30) 60 (by norm_num)
    exact ⟨b1, b2, hb.1, hb.2, b5, b6⟩
  | elevationSlide v =>
    simp only [eventWF, Bool.and_eq_true, decide_eq_true_eq] at he
    exact ⟨b1, b2, he.1, he.2, b5, b6⟩
  | distanceEdit s =>
    have hb := handleBlur_mem s p.distance 0.6 1.4 (by norm_num)
    exact ⟨b1, b2, b3, b4, le_trans (by norm_num : (0.5:ℚ) ≤ 0.6) hb.1, hb.2⟩
  | distanceSlide v =>
    simp only [eventWF, Bool.and_eq_true, decide_eq_true_eq] at he
    exact ⟨b1, b2, b3, b4, le_trans (by norm_num : (0.5:ℚ) ≤ 0.6) he.1, he.2⟩
  | preset a =>
    simp only [eventWF, Bool.and_eq_true, decide_eq_true_eq] at he
    have ha := directionAngles_ok a he.1 he.2
    exact ⟨ha.1, ha.2, show ((-30:ℚ) ≤ 35) by norm_num, show ((35:ℚ) ≤ 60) by norm_num, b5, b6⟩
  | shot t =>
    have ht := shotTypeDist_mem t
    exact ⟨b1, b2, b3, b4, ht.1, ht.2⟩

theorem orbitMove_none (s : RPose) : orbitMove s none = s := by
  norm_num [orbitMove, vlen]

theorem orbitMove_hit (s : RPose) (t : Vec3) (h : 0 < vlen t) :
    orbitMove s (some t) =
      { s with
        azimuth := ((jsRound (wrap360 (atan2 t.x t.z * 180 / Real.pi)) % 360 : ℤ) : ℝ),
        elevation := threeClamp
          ((jsRound (90 - Real.arccos (threeClamp (t.y / vlen t) (-1) 1) * 180 / Real.pi) : ℤ) : ℝ)
          (-30) 60 } := by
  simp [orbitMove, h]

theorem orbitMove_miss (s : RPose) (t : Vec3) (h : ¬ 0 < vlen t) :
    orbitMove s (some t) = s := by
  simp [orbitMove, h]

theorem orbitMove_valid : ∀ (s : RPose) (hit : Option Vec3),
    RValidPose s → RValidPose (orbitMove s hit) := by
  intro s hit hs
  obtain ⟨b1, b2, b3, b4, b5, b6⟩ := hs
  cases hit with
  | none =>
    rw [orbitMove_none]
    exact ⟨b1, b2, b3, b4, b5, b6⟩
  | some t =>
    by_cases hlen : 0 < vlen t
    · rw [orbitMove_hit s t hlen]
      have h0 : (0:ℝ) ≤ ((jsRound (wrap360 (atan2 t.x t.z * 180 / Real.pi)) % 360 : ℤ) : ℝ) := by
        exact_mod_cast Int.emod_nonneg _ (by norm_num : (360 : ℤ) ≠ 0)
      have h1 : ((jsRound (wrap360 (atan2 t.x t.z * 180 / Real.pi)) % 360 : ℤ) : ℝ) ≤ 360 := by
        have h2 := Int.emod_lt_of_pos (jsRound (wrap360 (atan2 t.x t.z * 180 / Real.pi)))
          (by norm_num : (0 : ℤ) < 360)
        exact le_of_lt (by exact_mod_cast h2)
      exact ⟨h0, h1, le_max_left _ _, max_le (by norm_num) (min_le_left _ _), b5, b6⟩
    · rw [orbitMove_miss s t hlen]
      exact ⟨b1, b2, b3, b4, b5, b6⟩

theorem sumSq_nonneg (a b c : ℝ) : 0 ≤ a * a + b * b + c * c :=
  add_nonneg (add_nonneg (mul_self_nonneg a) (mul_self_nonneg b)) (mul_self_nonneg c)

theorem zoomNewRadius_num : ∀ o d cp : Vec3, zoomDenom d cp ≠ 0 →
    ∃ x : ℝ, zoomNewRadius o d cp = JsR.num x ∧ 0.6 ≤ x ∧ x ≤ 1.4 := by
  intro o d cp h
  unfold zoomDenom at h
  unfold zoomNewRadius
  simp only [jsDiv, if_neg h]
  simp only [jsScaleAdd, jsSq, jsAdd, jsSqrt]
  split_ifs with hS
  · exact absurd hS (not_lt.mpr (sumSq_nonneg _ _ _))
  · simp only [jsDivScale, jsMin, jsMax]
    exact ⟨_, rfl, le_max_left _ _, max_le (by norm_num) (min_le_left _ _)⟩

theorem zoom_parallel_nan :
    zoomNewRadius ⟨0, 0, 5⟩ ⟨0, 0, -1⟩ ⟨0, 0, 2.5⟩ = JsR.nan := by
  have hv : vlen ⟨0, 0, 2.5⟩ = 2.5 := by
    unfold vlen
    rw [show ((0:ℝ) ^ 2 + (0:ℝ) ^ 2 + (2.5:ℝ) ^ 2) = 2.5 ^ 2 from by norm_num,
      Real.sqrt_sq (by norm_num : (0:ℝ) ≤ 2.5)]
  have hn : normalizeV ⟨0, 0, 2.5⟩ = ⟨0, 0, 1⟩ := by
    unfold normalizeV
    rw [hv]
    norm_num [smulV]
  unfold zoomNewRadius
  rw [hn]
  norm_num [dotV, negV, subV, smulV, jsDiv, jsScaleAdd, jsSq, jsAdd, jsSqrt,
    jsDivScale, jsMin, jsMax]

/-- Counterexample for C1, as stated, at concrete inputs: from the (spec-valid) default
pose the extreme shot-type button yields distance 0.5 ∉ [0.6, 1.4]; committing the
numeric azimuth text "360" yields azimuth 360 ∉ [0, 360); and an exactly parallel zoom
drag computes 0/0, storing NaN instead of an in-range distance. -/
theorem c1_counterexample :
    SpecValidPose defaultSettings ∧
    eventWF (PoseEvent.shot ShotType.extreme) = true ∧
    ¬ SpecValidPose (applyEvent (PoseEvent.shot ShotType.extreme) defaultSettings) ∧
    eventWF (PoseEvent.azimuthEdit (some 360)) = true ∧
    ¬ SpecValidPose (applyEvent (PoseEvent.azimuthEdit (some 360)) defaultSettings) ∧
    zoomNewRadius ⟨0, 0, 5⟩ ⟨0, 0, -1⟩ ⟨0, 0, 2.5⟩ = JsR.nan := by
  refine ⟨?_, rfl, ?_, rfl, ?_, zoom_parallel_nan⟩
  · norm_num [SpecValidPose, defaultSettings]
  · intro hc
    norm_num [SpecValidPose, applyEvent, applyShotType, shotTypeDist, defaultSettings] at hc
  · intro hc
    norm_num [SpecValidPose, applyEvent, handleBlur, defaultSettings] at hc

/-- C1 amended: every interface mutation preserves the widened invariant — azimuth in
`[0,360]` (360 is reachable from the slider and the numeric input), elevation in
`[-30,60]`, distance in `[0.5,1.4]` (0.5 via the extreme shot preset), and the shot type
one of the four tags (enforced by the `ShotType` type); orbit drags yield an integer
azimuth in `[0,360)` and a clamped elevation; and zoom drags with a nonzero projection
denominator store a distance clamped into `[0.6,1.4]`. -/
theorem c1_amended_invariants :
    (∀ p : CameraSettings, ValidPose p →
      ∀ e : PoseEvent, eventWF e = true → ValidPose (applyEvent e p)) ∧
    (∀ (s : RPose) (hit : Option Vec3), RValidPose s → RValidPose (orbitMove s hit)) ∧
    (∀ o d cp : Vec3, zoomDenom d cp ≠ 0 →
      ∃ x : ℝ, zoomNewRadius o d cp = JsR.num x ∧ 0.6 ≤ x ∧ x ≤ 1.4) :=
  ⟨applyEvent_valid, orbitMove_valid, zoomNewRadius_num⟩

/-- Closed witness for C1: the close shot-type preset applied to the default pose lands
inside the widened invariant. -/
theorem c1_witness :
    ValidPose (applyEvent (PoseEvent.shot ShotType.close) defaultSettings) :=
  c1_amended_invariants.1 defaultSettings
    (by norm_num [ValidPose, defaultSettings]) (PoseEvent.shot ShotType.close) rfl

/-- C4: the orbit drag ignores a missed intersection (pose unchanged), and at a hit
point `t` produces exactly the claimed elevation
`clamp(round(90 - acos(clamp(t.y/|t|, -1, 1))·180/π), -30, 60)` and the claimed azimuth
(degrees of `atan2(t.x, t.z)`, +360 if negative, rounded, reduced into `[0, 360)`),
leaving distance and shot type unchanged. -/
theorem c4_orbit_drag :
    (∀ s : RPose, orbitMove s none = s) ∧
    (∀ (s : RPose) (t : Vec3), 0 < vlen t →
      (orbitMove s (some t)).elevation = specOrbitElevation t ∧
      (orbitMove s (some t)).azimuth = specOrbitAzimuth t ∧
      0 ≤ (orbitMove s (some t)).azimuth ∧ (orbitMove s (some t)).azimuth < 360 ∧
      (orbitMove s (some t)).distance = s.distance ∧
      (orbitMove s (some t)).shotType = s.shotType) := by
  refine ⟨orbitMove_none, fun s t h => ?_⟩
  rw [orbitMove_hit s t h]
  refine ⟨rfl, rfl, ?_, ?_, rfl, rfl⟩
  · show (0:ℝ) ≤ ((jsRound (wrap360 (atan2 t.x t.z * 180 / Real.pi)) % 360 : ℤ) : ℝ)
    exact_mod_cast Int.emod_nonneg _ (by norm_num : (360 : ℤ) ≠ 0)
  · show ((jsRound (wrap360 (atan2 t.x t.z * 180 / Real.pi)) % 360 : ℤ) : ℝ) < 360
    exact_mod_cast Int.emod_lt_of_pos _ (by norm_num : (0 : ℤ) < 360)

/-- Closed witness for C4 at the hit point (0, 0, 1.5): the drag lands on the claimed
azimuth formula. -/
theorem c4_witness :
    (orbitMove ⟨45, 35, 1, ShotType.medium⟩ (some ⟨0, 0, 1.5⟩)).azimuth
      = specOrbitAzimuth ⟨0, 0, 1.5⟩ :=
  (c4_orbit_drag.2 ⟨45, 35, 1, ShotType.medium⟩ ⟨0, 0, 1.5⟩
    (by unfold vlen; exact Real.sqrt_pos.mpr (by norm_num))).2.1

/-- C2 as the code behaves: at an exactly parallel pointer ray (rayDir equal to the
camera direction up to sign) the unguarded zoom division computes `0/0 = NaN`, and the
`NaN` survives the clamp, so the update is not a no-op and the stored distance is not a
real number at all (in particular not in `[0.6, 1.4]`). -/
theorem c2_zoom_unguarded :
    zoomNewRadius ⟨0, 0, 5⟩ ⟨0, 0, -1⟩ ⟨0, 0, 2.5⟩ = JsR.nan ∧
    zoomDenom ⟨0, 0, -1⟩ ⟨0, 0, 2.5⟩ = 0 ∧
    ∀ x : ℝ, JsR.nan ≠ JsR.num x := by
  refine ⟨zoom_parallel_nan, ?_, fun x h => JsR.noConfusion h⟩
  have hv : vlen ⟨0, 0, 2.5⟩ = 2.5 := by
    unfold vlen
    rw [show ((0:ℝ) ^ 2 + (0:ℝ) ^ 2 + (2.5:ℝ) ^ 2) = 2.5 ^ 2 from by norm_num,
      Real.sqrt_sq (by norm_num : (0:ℝ) ≤ 2.5)]
  have hn : normalizeV ⟨0, 0, 2.5⟩ = ⟨0, 0, 1⟩ := by
    unfold normalizeV
    rw [hv]
    norm_num [smulV]
  unfold zoomDenom
  rw [hn]
  norm_num [dotV]

/-- C5: positions computed by `positionOf` round-trip exactly through the inverse
recovery used by the orbit branch — for every pose with azimuth in `[0, 360)`, elevation
in `[-30, 60]` and distance in `[0.6, 1.4]`, the recovered azimuth and elevation equal
the originals (so in particular they agree within rounding tolerance). -/
theorem c5_roundtrip :
    ∀ (a e d : ℝ) (st : ShotType), 0 ≤ a → a < 360 → -30 ≤ e → e ≤ 60 →
      0.6 ≤ d → d ≤ 1.4 →
      recoveredAzimuth (positionOf ⟨a, e, d, st⟩) = a ∧
      recoveredElevation (positionOf ⟨a, e, d, st⟩) = e := by
  intro a e d st ha0 ha1 he0 he1 hd0 hd1
  have hπ := Real.pi_pos
  have hπne : Real.pi ≠ 0 := ne_of_gt hπ
  set φ : ℝ := (90 - e) * (Real.pi / 180) with hφdef
  set θ : ℝ := a * (Real.pi / 180) with hθdef
  set r : ℝ := d * VISUAL_SCALE with hrdef
  have hr : 0 < r := by
    rw [hrdef]
    have hV : (0:ℝ) < VISUAL_SCALE := by norm_num [VISUAL_SCALE]
    nlinarith
  have hφ0 : 0 < φ := by
    rw [hφdef]
    have h90 : (0:ℝ) < 90 - e := by linarith
    positivity
  have hφπ : φ < Real.pi := by
    rw [hφdef]
    nlinarith
  have hsin : 0 < Real.sin φ := Real.sin_pos_of_pos_of_lt_pi hφ0 hφπ
  have hpos : positionOf ⟨a, e, d, st⟩ =
      ⟨r * Real.sin φ * Real.sin θ, r * Real.cos φ, r * Real.sin φ * Real.cos θ⟩ := rfl
  have hlen : vlen ⟨r * Real.sin φ * Real.sin θ, r * Real.cos φ,
      r * Real.sin φ * Real.cos θ⟩ = r := by
    unfold vlen
    have hsum : (r * Real.sin φ * Real.sin θ) ^ 2 + (r * Real.cos φ) ^ 2 +
        (r * Real.sin φ * Real.cos θ) ^ 2 = r ^ 2 := by
      have h1 := Real.sin_sq_add_cos_sq θ
      have h2 := Real.sin_sq_add_cos_sq φ
      linear_combination (r ^ 2 * Real.sin φ ^ 2) * h1 + r ^ 2 * h2
    rw [hsum, Real.sqrt_sq hr.le]
  have hclamp : threeClamp ((r * Real.cos φ) / r) (-1) 1 = Real.cos φ := by
    rw [mul_div_cancel_left₀ _ (ne_of_gt hr)]
    unfold threeClamp
    rw [min_eq_right (Real.cos_le_one φ), max_eq_right (Real.neg_one_le_cos φ)]
  have harccos : Real.arccos (Real.cos φ) = φ := Real.arccos_cos hφ0.le hφπ.le
  constructor
  · rw [hpos]
    unfold recoveredAzimuth atan2
    have hk : (0:ℝ) < r * Real.sin φ := mul_pos hr hsin
    have hfac : ((r * Real.sin φ * Real.cos θ : ℝ) : ℂ)
          + ((r * Real.sin φ * Real.sin θ : ℝ) : ℂ) * Complex.I
        = ((r * Real.sin φ : ℝ) : ℂ)
          * (((Real.cos θ : ℝ) : ℂ) + ((Real.sin θ : ℝ) : ℂ) * Complex.I) := by
      push_cast
      ring
    rw [hfac, Complex.arg_real_mul _ hk]
    by_cases hcase : a ≤ 180
    · have harg : Complex.arg (((Real.cos θ : ℝ) : ℂ) + ((Real.sin θ : ℝ) : ℂ) * Complex.I)
          = θ := by
        rw [Complex.ofReal_cos, Complex.ofReal_sin]
        exact Complex.arg_cos_add_sin_mul_I ⟨by rw [hθdef]; nlinarith, by rw [hθdef]; nlinarith⟩
      rw [harg]
      have hdeg : θ * 180 / Real.pi = a := by
        rw [hθdef]
        field_simp
      rw [hdeg]
      unfold wrap360
      rw [if_neg (not_lt.mpr ha0)]
    · push_neg at hcase
      have hcos : Real.cos θ = Real.cos (θ - 2 * Real.pi) := (Real.cos_sub_two_pi θ).symm
      have hsin2 : Real.sin θ = Real.sin (θ - 2 * Real.pi) := (Real.sin_sub_two_pi θ).symm
      have harg : Complex.arg (((Real.cos θ : ℝ) : ℂ) + ((Real.sin θ : ℝ) : ℂ) * Complex.I)
          = θ - 2 * Real.pi := by
        rw [hcos, hsin2, Complex.ofReal_cos, Complex.ofReal_sin]
        exact Complex.arg_cos_add_sin_mul_I ⟨by rw [hθdef]; nlinarith, by rw [hθdef]; nlinarith⟩
      rw [harg]
      have hdeg : (θ - 2 * Real.pi) * 180 / Real.pi = a - 360 := by
        rw [hθdef]
        field_simp
        try ring
      rw [hdeg]
      unfold wrap360
      rw [if_pos (by linarith : a - 360 < 0)]
      ring
  · rw [hpos]
    unfold recoveredElevation
    rw [hlen]
    rw [hclamp, harccos, hφdef]
    field_simp
    try ring

/-- Closed witness for C5 at the default pose (azimuth 45, elevation 35, distance 1). -/
theorem c5_witness :
    recoveredAzimuth (positionOf ⟨45, 35, 1, ShotType.medium⟩) = 45 ∧
    recoveredElevation (positionOf ⟨45, 35, 1, ShotType.medium⟩) = 35 :=
  c5_roundtrip 45 35 1 ShotType.medium (by norm_num) (by norm_num) (by norm_num)
    (by norm_num) (by norm_num) (by norm_num)

end Studio
